import Mathlib

/-!
Shallow embedding of the LEET (London Energy Efficiency Tool) reporting layer.

The definitions below are translated from the repository's Python sources:
  - models.py        : the four relational tables (Borough, BuildingType,
                       Building, EnergyUsage), embedded as lists of rows.
  - report_utils.py  : generate_borough_summary_data.
  - routes.py        : the data path of borough_summary_generate, and the
                       percentile threshold of visualisation_high_demand.
  - add_data.py      : the ingestion loader (add_boroughs, add_building_types,
                       add_buildings_and_energy, add_all_data).
  - figures.py       : the data underlying create_high_demand_chart and
                       create_energy_heatmap.

Floats in the source (kwh, peak_kw, latitude, longitude, thresholds) are
embedded as rationals; pandas DataFrames as lists of records.  SQL joins are
embedded as nested list traversals: row order may differ from the engine's,
but every property proved below is order-insensitive (sums, means, distinct
counts, membership, emptiness).
-/

namespace Leet

/-! ## Data model (models.py)

Each table is a list of rows.  Borough has a single string primary-key
column, so it is embedded as a list of names. -/

structure BuildingTypeRow where
  building_type_id : Nat
  building_type_name : String
  deriving DecidableEq, Repr

structure BuildingRow where
  building_id : Nat
  borough_name : String
  latitude : ℚ
  longitude : ℚ
  residential_count : Int
  non_residential_count : Int
  building_type_id : Nat
  deriving DecidableEq, Repr

structure EnergyUsageRow where
  usage_id : Nat
  building_id : Nat
  kwh : ℚ
  peak_kw : ℚ
  deriving DecidableEq, Repr

structure DBState where
  boroughs : List String
  buildingTypes : List BuildingTypeRow
  buildings : List BuildingRow
  usages : List EnergyUsageRow
  deriving DecidableEq, Repr

/-- Primary-key integrity of the building table: building ids are unique. -/
def BuildingIdsNodup (db : DBState) : Prop :=
  (db.buildings.map (·.building_id)).Nodup

/-- Primary-key integrity of the building-type table: type ids are unique. -/
def TypeIdsNodup (db : DBState) : Prop :=
  (db.buildingTypes.map (·.building_type_id)).Nodup

/-- Foreign-key integrity: every building's type id exists in the type table. -/
def TypesPresent (db : DBState) : Prop :=
  ∀ b ∈ db.buildings, ∃ bt ∈ db.buildingTypes, bt.building_type_id = b.building_type_id

instance (db : DBState) : Decidable (BuildingIdsNodup db) := by
  unfold BuildingIdsNodup; infer_instance

instance (db : DBState) : Decidable (TypeIdsNodup db) := by
  unfold TypeIdsNodup; infer_instance

instance (db : DBState) : Decidable (TypesPresent db) := by
  unfold TypesPresent; infer_instance

/-! ## Borough summary (report_utils.generate_borough_summary_data) -/

/-- One row of the borough-summary DataFrame: the columns selected by the
base query of generate_borough_summary_data. -/
structure SummaryRow where
  building_id : Nat
  latitude : ℚ
  longitude : ℚ
  building_type_name : String
  kwh : ℚ
  peak_kw : ℚ
  deriving DecidableEq, Repr

/-- The base query: Building joined to EnergyUsage on building_id and to
BuildingType on building_type_id, filtered to the given borough. -/
def boroughJoinRows (db : DBState) (borough : String) : List SummaryRow :=
  (db.buildings.filter (fun b => b.borough_name == borough)).flatMap fun b =>
    (db.usages.filter (fun u => u.building_id == b.building_id)).flatMap fun u =>
      (db.buildingTypes.filter (fun bt => bt.building_type_id == b.building_type_id)).map fun bt =>
        { building_id := b.building_id
          latitude := b.latitude
          longitude := b.longitude
          building_type_name := bt.building_type_name
          kwh := u.kwh
          peak_kw := u.peak_kw }

/-- The optional building-type filter: applied only when the argument is
truthy (a non-empty string), mirroring the source's `if building_type:`. -/
def typeFilteredRows (db : DBState) (borough building_type : String) : List SummaryRow :=
  let rows := boroughJoinRows db borough
  if building_type ≠ "" then
    rows.filter (fun r => r.building_type_name == building_type)
  else rows

/-- The optional kwh-threshold filter (inclusive, kwh >= threshold): applied
only when the argument is truthy (non-zero), mirroring `if threshold:`. -/
def filteredRows (db : DBState) (borough building_type : String) (threshold : ℚ) :
    List SummaryRow :=
  let rows := typeFilteredRows db borough building_type
  if threshold ≠ 0 then rows.filter (fun r => threshold ≤ r.kwh) else rows

structure SummaryStats where
  total_buildings : Nat
  total_kwh : ℚ
  avg_kwh : ℚ
  avg_peak_kw : ℚ
  deriving DecidableEq, Repr

structure BoroughSummaryData where
  rows : List SummaryRow
  summary_stats : SummaryStats
  deriving DecidableEq, Repr

/-- generate_borough_summary_data: returns the all-None sentinel (here
Option.none) when the filtered DataFrame is empty, otherwise the raw rows
and the summary statistics.  nunique is the number of distinct values;
mean is sum divided by row count.  (The display formatting of display_df is
presentation-only and not modelled.) -/
def generate_borough_summary_data (db : DBState) (borough building_type : String)
    (threshold : ℚ) : Option BoroughSummaryData :=
  let rows := filteredRows db borough building_type threshold
  if rows.isEmpty then none
  else
    some
      { rows := rows
        summary_stats :=
          { total_buildings := (rows.map (·.building_id)).dedup.length
            total_kwh := (rows.map (·.kwh)).sum
            avg_kwh := (rows.map (·.kwh)).sum / rows.length
            avg_peak_kw := (rows.map (·.peak_kw)).sum / rows.length } }

/-- Usage rows belonging to buildings of the given borough (used to state
the spec's property that total_kwh sums the borough's usage rows). -/
def boroughUsageRows (db : DBState) (borough : String) : List EnergyUsageRow :=
  db.usages.filter fun u =>
    db.buildings.any fun b => u.building_id == b.building_id && b.borough_name == borough

/-! ## Borough-summary route (routes.borough_summary_generate, data path)

Only the branch on the sentinel is modelled: chart construction, the map,
and the CSV/HTML rendering are presentation-only. -/

inductive ReportResponse where
  | noData (borough message : String)
  | report (borough : String) (data : BoroughSummaryData)
  deriving DecidableEq, Repr

def borough_summary_generate (db : DBState) (borough building_type : String)
    (threshold : ℚ) : ReportResponse :=
  match generate_borough_summary_data db borough building_type threshold with
  | none => .noData borough "No data matches your selected filters."
  | some d => .report borough d

/-! ## Ingestion loader (add_data.py) -/

/-- One row of the prepared CSV, with the source file's column names. -/
structure CsvRow where
  BOROUGH : String
  BUILDING_TYPE : String
  LATITUDE : ℚ
  LONGITUDE : ℚ
  RESI_COUNT : Int
  NONRESI_COUNT : Int
  KWH : ℚ
  PEAK_KW : ℚ
  deriving DecidableEq, Repr

/-- clean_dataframe: strip whitespace from the categorical columns. -/
def cleanDataframe (df : List CsvRow) : List CsvRow :=
  df.map fun r => { r with BOROUGH := r.BOROUGH.trim, BUILDING_TYPE := r.BUILDING_TYPE.trim }

/-- pandas Series.unique: distinct values in order of first appearance. -/
def pandasUnique {α : Type _} [DecidableEq α] (l : List α) : List α :=
  l.foldl (fun acc a => if a ∈ acc then acc else acc ++ [a]) []

/-- add_boroughs: for each distinct BOROUGH value, insert it unless the
primary key already exists.  (The commit cannot violate a constraint: the
get-check rules out duplicate keys, so the except branch is unreachable.) -/
def add_boroughs (df : List CsvRow) (st : DBState) : DBState :=
  { st with
    boroughs :=
      (pandasUnique (df.map (·.BOROUGH))).foldl
        (fun bs b => if b ∈ bs then bs else bs ++ [b]) st.boroughs }

/-- Next autoincrement surrogate id for the building_type table. -/
def nextTypeId (st : DBState) : Nat :=
  (st.buildingTypes.map (·.building_type_id)).foldr max 0 + 1

/-- add_building_types: for each distinct BUILDING_TYPE value, insert it
unless a row with that name already exists.  (As in add_boroughs, the
filter_by check makes the except branch unreachable.) -/
def add_building_types (df : List CsvRow) (st : DBState) : DBState :=
  (pandasUnique (df.map (·.BUILDING_TYPE))).foldl
    (fun s t =>
      if s.buildingTypes.any (fun bt => bt.building_type_name == t) then s
      else { s with buildingTypes := s.buildingTypes ++ [⟨nextTypeId s, t⟩] })
    st

/-- The name-to-id dict comprehension of add_buildings_and_energy: for
duplicate names the later row overwrites the earlier, so the last match
wins. -/
def typeMapLookup (st : DBState) (name : String) : Option Nat :=
  (st.buildingTypes.reverse.find? (fun bt => bt.building_type_name == name)).map
    (·.building_type_id)

/-- The Python exception escaping the loader: the dict lookup
type_map[row['BUILDING_TYPE']] raises KeyError for an unmapped building
type.  KeyError is not a SQLAlchemyError, so neither except clause of
add_buildings_and_energy catches it. -/
inductive LoadErr where
  | keyError (building_type : String)
  deriving DecidableEq, Repr

def nextBuildingId (st : DBState) : Nat :=
  (st.buildings.map (·.building_id)).foldr max 0 + 1

def nextUsageId (st : DBState) : Nat :=
  (st.usages.map (·.usage_id)).foldr max 0 + 1

/-- One iteration of the row loop of add_buildings_and_energy: look up the
building type (KeyError if absent), construct the Building, flush to obtain
its surrogate id, construct the paired EnergyUsage, commit.  The inserts
themselves always succeed (SQLite accepts them; no constraint can fire
here), so the per-row except-SQLAlchemyError branch is unreachable and the
only failure is the KeyError raised before anything is added. -/
def insertRow (st : DBState) (r : CsvRow) : Except LoadErr DBState :=
  match typeMapLookup st r.BUILDING_TYPE with
  | none => .error (.keyError r.BUILDING_TYPE)
  | some tid =>
      let b : BuildingRow :=
        { building_id := nextBuildingId st
          borough_name := r.BOROUGH
          latitude := r.LATITUDE
          longitude := r.LONGITUDE
          residential_count := r.RESI_COUNT
          non_residential_count := r.NONRESI_COUNT
          building_type_id := tid }
      let st' := { st with buildings := st.buildings ++ [b] }
      let u : EnergyUsageRow :=
        { usage_id := nextUsageId st'
          building_id := b.building_id
          kwh := r.KWH
          peak_kw := r.PEAK_KW }
      .ok { st' with usages := st'.usages ++ [u] }

/-- The row loop: rows are processed in order; each successful row is
committed; a KeyError aborts the loop, keeping the rows committed so far
and propagating the error. -/
def processRows (st : DBState) : List CsvRow → DBState × Option LoadErr
  | [] => (st, none)
  | r :: rs =>
    match insertRow st r with
    | .error e => (st, some e)
    | .ok st' => processRows st' rs

/-- add_buildings_and_energy: build the type map, then run the row loop.
The uncaught KeyError (if any) escapes the function. -/
def add_buildings_and_energy (df : List CsvRow) (st : DBState) : DBState × Option LoadErr :=
  processRows st df

/-- add_all_data: clean the CSV, then for each of the three target tables
check the row count and populate only when it is zero.  The count for the
third step is taken on the Building table, as in the source.  A KeyError
escaping add_buildings_and_energy also escapes add_all_data (its except
clauses catch only FileNotFoundError and SQLAlchemyError).  Reading the CSV
is outside the model: df is the already-read file. -/
def add_all_data (df : List CsvRow) (st : DBState) : DBState × Option LoadErr :=
  let df' := cleanDataframe df
  let st1 := if st.boroughs.length = 0 then add_boroughs df' st else st
  let st2 := if st1.buildingTypes.length = 0 then add_building_types df' st1 else st1
  if st2.buildings.length = 0 then add_buildings_and_energy df' st2 else (st2, none)

/-! ## High-demand chart (figures.create_high_demand_chart, data part) -/

/-- The query of create_high_demand_chart: Building joined to EnergyUsage,
selecting (borough_name, kwh). -/
def buildingUsageJoin (db : DBState) : List (String × ℚ) :=
  db.buildings.flatMap fun b =>
    (db.usages.filter (fun u => u.building_id == b.building_id)).map fun u =>
      (b.borough_name, u.kwh)

/-- pandas Series.value_counts: one pair per distinct value with its
occurrence count, sorted by descending count. -/
def valueCounts (l : List String) : List (String × Nat) :=
  List.insertionSort (fun p q : String × Nat => q.2 ≤ p.2)
    ((pandasUnique l).map fun s => (s, l.count s))

/-- create_high_demand_chart, data part: filter the join to rows with
kwh strictly greater than the threshold, count per borough; when no row
qualifies, fall back to the distinct boroughs of the (unfiltered) join,
each with count 0. -/
def create_high_demand_chart (threshold_kwh : ℚ) (db : DBState) : List (String × Nat) :=
  let df := buildingUsageJoin db
  let high_demand_df := df.filter fun r => threshold_kwh < r.2
  let demand_counts := valueCounts (high_demand_df.map (·.1))
  if demand_counts.isEmpty then
    (pandasUnique (df.map (·.1))).map fun b => (b, 0)
  else demand_counts

/-- The count the chart reports for a borough: the value paired with it,
or 0 when the borough has no bar. -/
def reportedCount (counts : List (String × Nat)) (b : String) : Nat :=
  ((counts.find? (fun p => p.1 == b)).map (·.2)).getD 0

/-! ## Energy heatmap (figures.create_energy_heatmap, data part) -/

/-- The query of create_energy_heatmap: Building joined to EnergyUsage,
filtered to the borough, selecting (latitude, longitude, kwh). -/
def heatmapRows (db : DBState) (borough : String) : List (ℚ × ℚ × ℚ) :=
  (db.buildings.filter (fun b => b.borough_name == borough)).flatMap fun b =>
    (db.usages.filter (fun u => u.building_id == b.building_id)).map fun u =>
      (b.latitude, b.longitude, u.kwh)

inductive HeatmapFigure where
  | noDataMap (lat lon : ℚ) (borough : String)
  | densityMap (rows : List (ℚ × ℚ × ℚ)) (borough : String)
  deriving DecidableEq, Repr

/-- create_energy_heatmap: when the query matches zero rows, return the
single-default-point scatter map at (51.5074, -0.1278) instead of the
density map. -/
def create_energy_heatmap (db : DBState) (borough : String) : HeatmapFigure :=
  let df := heatmapRows db borough
  if df.isEmpty then .noDataMap (51.5074 : ℚ) (-0.1278 : ℚ) borough
  else .densityMap df borough

/-! ## Percentile threshold (routes.visualisation_high_demand) -/

/-- pandas Series.quantile with the default linear interpolation: sort the
values, take position (n-1)*q, and interpolate linearly between the
neighbouring order statistics.  (For an empty series pandas yields NaN;
the definition is total here but only used on non-empty data.) -/
def quantileLinear (xs : List ℚ) (q : ℚ) : ℚ :=
  let s := List.insertionSort (· ≤ ·) xs
  let n := s.length
  let h : ℚ := ((n : ℚ) - 1) * q
  let i : ℕ := (⌊h⌋).toNat
  let lo := s.getD i 0
  let hi := s.getD (i + 1) lo
  lo + (h - (i : ℚ)) * (hi - lo)

/-- visualisation_high_demand, threshold computation: the percentile of the
kwh column over the entire usage population. -/
def visualisation_high_demand_threshold (db : DBState) (percentile : ℕ) : ℚ :=
  quantileLinear (db.usages.map (·.kwh)) ((percentile : ℚ) / 100)

/-! ## General list lemmas -/

theorem sum_filter_eq_sum_ite {α M : Type _} [AddCommMonoid M] (l : List α) (p : α → Bool)
    (w : α → M) :
    ((l.filter p).map w).sum = (l.map fun a => if p a then w a else 0).sum := by
  induction l with
  | nil => rfl
  | cons a l ih =>
    cases hpa : p a <;> simp [List.filter_cons, hpa, ih]

theorem sum_exchange {α β M : Type _} [AddCommMonoid M] (A : List α) (B : List β)
    (f : α → β → M) :
    (A.map fun a => (B.map (f a)).sum).sum = (B.map fun b => (A.map fun a => f a b).sum).sum := by
  induction A with
  | nil => simp
  | cons a A ih => simp [ih, List.sum_map_add]

theorem sum_ite_key {α M : Type _} [AddCommMonoid M] (B : List α) (key : α → Nat)
    (hN : (B.map key).Nodup) (k : Nat) (c : α → Bool) (v : M) :
    (B.map fun a => if k == key a && c a then v else 0).sum
      = if B.any fun a => k == key a && c a then v else 0 := by
  induction B with
  | nil => simp
  | cons a B ih =>
    rcases List.nodup_cons.mp hN with ⟨hka, hN'⟩
    cases hcond : (k == key a && c a) with
    | true =>
      have hk : k = key a := eq_of_beq ((Bool.and_eq_true _ _).mp hcond).1
      have hrest : (B.map fun a' => if k == key a' && c a' then v else 0).sum = 0 := by
        apply List.sum_eq_zero
        intro x hx
        rcases List.mem_map.mp hx with ⟨a', ha', rfl⟩
        have hne : (k == key a') = false := by
          apply beq_eq_false_iff_ne.mpr
          intro hkk
          exact hka (hk ▸ hkk ▸ List.mem_map_of_mem key ha')
        simp [hne]
      rw [List.map_cons, List.sum_cons, List.any_cons, hcond, hrest]
      simp
    | false =>
      rw [List.map_cons, List.sum_cons, List.any_cons, hcond, ih hN']
      simp

theorem length_eq_sum_ones {α : Type _} (l : List α) : (l.map fun _ => (1 : ℕ)).sum = l.length := by
  induction l with
  | nil => rfl
  | cons a l ih => simp [ih, Nat.add_comm]

theorem filter_flatMap_comm {α β : Type _} (l : List α) (f : α → List β) (p : β → Bool) :
    (l.flatMap f).filter p = l.flatMap fun a => (f a).filter p := by
  induction l with
  | nil => rfl
  | cons a l ih => simp [List.flatMap_cons, List.filter_append, ih]

theorem sum_flatMap {α M : Type _} [AddCommMonoid M] (l : List α) (f : α → List M) :
    (l.flatMap f).sum = (l.map fun a => (f a).sum).sum := by
  induction l with
  | nil => rfl
  | cons a l ih => simp [List.flatMap_cons, List.sum_append, ih]

/-! ## pandasUnique and valueCounts lemmas -/

theorem mem_foldl_insert {α : Type _} [DecidableEq α] (l : List α) (acc : List α) (a : α) :
    (a ∈ l.foldl (fun acc x => if x ∈ acc then acc else acc ++ [x]) acc) ↔ a ∈ acc ∨ a ∈ l := by
  induction l generalizing acc with
  | nil => simp
  | cons x l ih =>
    by_cases hx : x ∈ acc
    · rw [List.foldl_cons, if_pos hx, ih]
      constructor
      · rintro (h | h)
        · exact Or.inl h
        · exact Or.inr (List.mem_cons_of_mem x h)
      · rintro (h | h)
        · exact Or.inl h
        · rcases List.mem_cons.mp h with rfl | h
          · exact Or.inl hx
          · exact Or.inr h
    · rw [List.foldl_cons, if_neg hx, ih]
      simp only [List.mem_append, List.mem_singleton, List.mem_cons]
      tauto

theorem mem_pandasUnique {α : Type _} [DecidableEq α] (l : List α) (a : α) :
    a ∈ pandasUnique l ↔ a ∈ l := by
  unfold pandasUnique
  simpa using mem_foldl_insert l [] a

theorem pandasUnique_eq_nil {α : Type _} [DecidableEq α] (l : List α) :
    pandasUnique l = [] ↔ l = [] := by
  constructor
  · intro h
    rcases l with _ | ⟨a, l⟩
    · rfl
    · exfalso
      have : a ∈ pandasUnique (a :: l) := (mem_pandasUnique _ a).mpr (List.mem_cons_self a l)
      rw [h] at this
      exact List.not_mem_nil a this
  · intro h; subst h; rfl

theorem mem_valueCounts {l : List String} {q : String × Nat} (hq : q ∈ valueCounts l) :
    q.1 ∈ l ∧ q.2 = l.count q.1 := by
  unfold valueCounts at hq
  have hq' := (List.perm_insertionSort _ _).mem_iff.mp hq
  rcases List.mem_map.mp hq' with ⟨s, hs, rfl⟩
  exact ⟨(mem_pandasUnique l s).mp hs, rfl⟩

theorem valueCounts_has_key {l : List String} {b : String} (hb : b ∈ l) :
    ∃ q ∈ valueCounts l, q.1 = b := by
  refine ⟨(b, l.count b), ?_, rfl⟩
  unfold valueCounts
  exact (List.perm_insertionSort _ _).mem_iff.mpr
    (List.mem_map_of_mem _ ((mem_pandasUnique l b).mpr hb))

theorem reportedCount_valueCounts (l : List String) (b : String) :
    reportedCount (valueCounts l) b = l.count b := by
  unfold reportedCount
  cases hf : (valueCounts l).find? (fun p => p.1 == b) with
  | none =>
    have hnb : b ∉ l := by
      intro hb
      rcases valueCounts_has_key hb with ⟨q, hq, hq1⟩
      exact (List.find?_eq_none.mp hf) q hq (by simp [hq1])
    simp [List.count_eq_zero.mpr hnb]
  | some q =>
    have hq1 : q.1 = b := by simpa using List.find?_some hf
    have hq2 := (mem_valueCounts (List.mem_of_find?_eq_some hf)).2
    simp [hq2, hq1]

theorem valueCounts_eq_nil {l : List String} (h : valueCounts l = []) : l = [] := by
  rcases l with _ | ⟨a, l⟩
  · rfl
  · exfalso
    rcases valueCounts_has_key (List.mem_cons_self a l) with ⟨q, hq, _⟩
    rw [h] at hq
    exact List.not_mem_nil q hq

theorem flatMap_congr_mem {α β : Type _} {l : List α} {f g : α → List β}
    (h : ∀ a ∈ l, f a = g a) : l.flatMap f = l.flatMap g := by
  induction l with
  | nil => rfl
  | cons a l ih =>
    rw [List.flatMap_cons, List.flatMap_cons, h a (List.mem_cons_self a l),
      ih fun x hx => h x (List.mem_cons_of_mem a hx)]

/-- The join-exchange workhorse: summing a weight over the usage rows
matched building-by-building (each building's id being unique) equals
summing it over the usage rows that match some qualifying building. -/
theorem master_sum {M : Type _} [AddCommMonoid M] (B : List BuildingRow)
    (us : List EnergyUsageRow) (hN : (B.map (·.building_id)).Nodup)
    (c : BuildingRow → Bool) (q : EnergyUsageRow → Bool) (w : EnergyUsageRow → M) :
    ((B.filter c).map fun bl =>
        ((us.filter fun u => u.building_id == bl.building_id && q u).map w).sum).sum
      = ((us.filter fun u =>
            (B.any fun bl => u.building_id == bl.building_id && c bl) && q u).map w).sum := by
  rw [sum_filter_eq_sum_ite]
  have step2 : ∀ bl ∈ B,
      (if c bl then ((us.filter fun u => u.building_id == bl.building_id && q u).map w).sum
        else 0)
        = (us.map fun u =>
            if (u.building_id == bl.building_id && c bl) && q u then w u else 0).sum := by
    intro bl _
    by_cases hc : c bl = true
    · rw [if_pos hc, sum_filter_eq_sum_ite]
      apply congrArg List.sum
      apply List.map_congr_left
      intro u _
      simp [hc]
    · rw [if_neg hc]
      symm
      apply List.sum_eq_zero
      intro x hx
      rcases List.mem_map.mp hx with ⟨u, _, rfl⟩
      simp [Bool.eq_false_iff.mpr hc]
  rw [List.map_congr_left step2, sum_exchange]
  rw [sum_filter_eq_sum_ite]
  apply congrArg List.sum
  apply List.map_congr_left
  intro u _
  by_cases hq : q u = true
  · have inner : (B.map fun bl =>
        if (u.building_id == bl.building_id && c bl) && q u then w u else 0)
        = B.map fun bl => if u.building_id == bl.building_id && c bl then w u else 0 := by
      apply List.map_congr_left
      intro bl _
      simp [hq]
    rw [inner, sum_ite_key B (·.building_id) hN u.building_id c (w u)]
    simp [hq]
  · have hq' : q u = false := Bool.eq_false_iff.mpr hq
    have inner : (B.map fun bl =>
        if (u.building_id == bl.building_id && c bl) && q u then w u else 0)
        = B.map fun _ => 0 := by
      apply List.map_congr_left
      intro bl _
      simp [hq']
    rw [inner]
    simp [hq']

theorem reportedCount_zeros (u : List String) (b : String) :
    reportedCount (u.map fun x => (x, 0)) b = 0 := by
  unfold reportedCount
  cases hf : (u.map fun x => (x, 0)).find? (fun p => p.1 == b) with
  | none => rfl
  | some q =>
    have hq := List.mem_of_find?_eq_some hf
    rcases List.mem_map.mp hq with ⟨x, _, rfl⟩
    rfl

/-! ## The borough-summary join under referential integrity -/

theorem typesFilter_singleton (ts : List BuildingTypeRow) (tid : Nat)
    (hN : (ts.map (·.building_type_id)).Nodup)
    (hM : ∃ bt ∈ ts, bt.building_type_id = tid) :
    ∃ bt0, ts.filter (fun x => x.building_type_id == tid) = [bt0] := by
  induction ts with
  | nil => rcases hM with ⟨bt, h, _⟩; cases h
  | cons t ts ih =>
    rcases List.nodup_cons.mp hN with ⟨hk, hN'⟩
    by_cases ht : t.building_type_id = tid
    · refine ⟨t, ?_⟩
      have hrest : ts.filter (fun x => x.building_type_id == tid) = [] := by
        apply List.filter_eq_nil_iff.mpr
        intro x hx hbx
        have hxid : x.building_type_id = tid := eq_of_beq hbx
        apply hk
        have : x.building_type_id ∈ ts.map (·.building_type_id) :=
          List.mem_map_of_mem _ hx
        rwa [hxid, ← ht] at this
      simp [List.filter_cons, ht, hrest]
    · rcases hM with ⟨bt, hbt, hbtid⟩
      rcases List.mem_cons.mp hbt with rfl | hbt'
      · exact absurd hbtid ht
      · rcases ih hN' ⟨bt, hbt', hbtid⟩ with ⟨bt0, h0⟩
        refine ⟨bt0, ?_⟩
        simp [List.filter_cons, ht, h0]

/-- Under PK/FK integrity of the building-type table, the three-way join of
the borough summary carries exactly one row per (building, usage) pair, so
its kwh column is that of the two-way building-usage join. -/
theorem boroughJoin_kwh_collapse (db : DBState) (borough : String)
    (hT : TypeIdsNodup db) (hP : TypesPresent db) :
    (boroughJoinRows db borough).map (·.kwh)
      = (db.buildings.filter fun b => b.borough_name == borough).flatMap fun b =>
          (db.usages.filter fun u => u.building_id == b.building_id).map (·.kwh) := by
  unfold boroughJoinRows
  rw [List.map_flatMap]
  apply flatMap_congr_mem
  intro b hb
  rw [List.map_flatMap]
  rcases typesFilter_singleton db.buildingTypes b.building_type_id hT
      (hP b (List.mem_of_mem_filter hb)) with ⟨bt0, hbt0⟩
  have inner : ∀ u ∈ db.usages.filter fun u => u.building_id == b.building_id,
      ((db.buildingTypes.filter fun bt => bt.building_type_id == b.building_type_id).map
          fun bt =>
            ({ building_id := b.building_id, latitude := b.latitude, longitude := b.longitude
               building_type_name := bt.building_type_name, kwh := u.kwh
               peak_kw := u.peak_kw } : SummaryRow)).map (·.kwh)
        = [u.kwh] := by
    intro u _
    rw [hbt0]
    rfl
  rw [flatMap_congr_mem inner]
  exact (List.map_eq_flatMap _ _).symm

/-- Under building-id uniqueness and type-table integrity, the total kwh of
the borough join equals the kwh summed directly over the borough's usage
rows. -/
theorem borough_total_kwh (db : DBState) (borough : String) (hB : BuildingIdsNodup db)
    (hT : TypeIdsNodup db) (hP : TypesPresent db) :
    ((boroughJoinRows db borough).map (·.kwh)).sum
      = ((boroughUsageRows db borough).map (·.kwh)).sum := by
  rw [boroughJoin_kwh_collapse db borough hT hP, sum_flatMap]
  have h := master_sum (M := ℚ) db.buildings db.usages hB
    (fun b => b.borough_name == borough) (fun _ => true) (·.kwh)
  simp only [Bool.and_true] at h
  rw [h]
  rfl

/-! ## High-demand count lemmas -/

theorem count_high_demand_join (db : DBState) (t : ℚ) (b : String) :
    (((buildingUsageJoin db).filter fun r => decide (t < r.2)).map (·.1)).count b
      = ((buildingUsageJoin db).filter fun r => r.1 == b && decide (t < r.2)).length := by
  rw [List.count_eq_countP, List.countP_map, List.countP_filter,
    List.countP_eq_length_filter]
  rfl

theorem high_demand_per_building (db : DBState) (t : ℚ) (b : String) :
    ∀ bl ∈ db.buildings,
      (((db.usages.filter fun u => u.building_id == bl.building_id).map
          fun u => (bl.borough_name, u.kwh)).filter fun r => r.1 == b && decide (t < r.2)).length
        = if bl.borough_name == b then
            ((db.usages.filter fun u => u.building_id == bl.building_id && decide (t < u.kwh)).map
              fun _ => (1 : ℕ)).sum
          else 0 := by
  intro bl _
  rw [List.filter_map, List.length_map, List.filter_filter]
  by_cases hc : (bl.borough_name == b) = true
  · rw [if_pos hc]
    have hcongr : ∀ u ∈ db.usages,
        ((((fun r : String × ℚ => r.1 == b && decide (t < r.2)) ∘
            fun u => (bl.borough_name, u.kwh)) u) && (u.building_id == bl.building_id))
          = (u.building_id == bl.building_id && decide (t < u.kwh)) := by
      intro u _
      cases hbid : (u.building_id == bl.building_id) <;>
        cases hkw : decide (t < u.kwh) <;> simp [Function.comp, hc, hbid, hkw]
    rw [List.filter_congr hcongr]
    exact (length_eq_sum_ones _).symm
  · rw [if_neg hc]
    have hc' : (bl.borough_name == b) = false := Bool.eq_false_iff.mpr hc
    have hnil : db.usages.filter (fun u =>
        (((fun r : String × ℚ => r.1 == b && decide (t < r.2)) ∘
          fun u => (bl.borough_name, u.kwh)) u) && (u.building_id == bl.building_id)) = [] := by
      apply List.filter_eq_nil_iff.mpr
      intro u _
      simp [Function.comp, hc']
    rw [hnil]
    rfl

/-- Claim C5: the high-demand counts operation classifies a row as
high-demand only when its kwh is strictly greater than the threshold: for
every threshold and borough (building ids being unique), the reported count
equals the number of usage rows belonging to that borough with kwh
strictly above the threshold, so a row with kwh exactly equal to the
threshold is not counted. -/
theorem c5_high_demand_strict (db : DBState) (hB : BuildingIdsNodup db) (t : ℚ) (b : String) :
    reportedCount (create_high_demand_chart t db) b
      = (db.usages.filter fun u =>
          (db.buildings.any fun bl => u.building_id == bl.building_id && bl.borough_name == b)
            && decide (t < u.kwh)).length := by
  have stepA : reportedCount (create_high_demand_chart t db) b
      = (((buildingUsageJoin db).filter fun r => decide (t < r.2)).map (·.1)).count b := by
    simp only [create_high_demand_chart]
    by_cases hE :
        (valueCounts
          (((buildingUsageJoin db).filter fun r => decide (t < r.2)).map (·.1))).isEmpty = true
    · rw [if_pos hE, reportedCount_zeros]
      have h0 : ((buildingUsageJoin db).filter fun r => decide (t < r.2)).map (·.1) = [] :=
        valueCounts_eq_nil (List.isEmpty_iff.mp hE)
      rw [h0]
      rfl
    · rw [if_neg hE, reportedCount_valueCounts]
  rw [stepA, count_high_demand_join]
  unfold buildingUsageJoin
  rw [filter_flatMap_comm, List.length_flatMap]
  have hpoint : ∀ bl ∈ db.buildings,
      (List.length ∘ fun bl =>
        ((db.usages.filter fun u => u.building_id == bl.building_id).map
          fun u => (bl.borough_name, u.kwh)).filter fun r => r.1 == b && decide (t < r.2)) bl
        = if (fun bl : BuildingRow => bl.borough_name == b) bl then
            ((db.usages.filter fun u => u.building_id == bl.building_id && decide (t < u.kwh)).map
              fun _ => (1 : ℕ)).sum
          else 0 := by
    intro bl hbl
    exact high_demand_per_building db t b bl hbl
  rw [List.map_congr_left hpoint,
    ← sum_filter_eq_sum_ite db.buildings (fun bl => bl.borough_name == b)
      (fun bl =>
        ((db.usages.filter fun u => u.building_id == bl.building_id && decide (t < u.kwh)).map
          fun _ => (1 : ℕ)).sum),
    master_sum (M := ℕ) db.buildings db.usages hB (fun bl => bl.borough_name == b)
      (fun u => decide (t < u.kwh)) (fun _ => 1),
    length_eq_sum_ones]

/-! ## Quantile lemmas -/

theorem sorted_getD_mono {s : List ℚ} (hs : List.Sorted (· ≤ ·) s) {i j : ℕ}
    (hij : i ≤ j) (hj : j < s.length) : s.getD i 0 ≤ s.getD j 0 := by
  have hi : i < s.length := lt_of_le_of_lt hij hj
  rw [List.getD_eq_getElem s 0 hi, List.getD_eq_getElem s 0 hj]
  have h := hs.rel_get_of_le (a := ⟨i, hi⟩) (b := ⟨j, hj⟩) hij
  simpa [List.get_eq_getElem] using h

theorem getD_succ_ge {s : List ℚ} (hs : List.Sorted (· ≤ ·) s) {i : ℕ}
    (hi : i < s.length) : s.getD i 0 ≤ s.getD (i + 1) (s.getD i 0) := by
  by_cases hsucc : i + 1 < s.length
  · rw [List.getD_eq_getElem s _ hsucc]
    have := sorted_getD_mono hs (Nat.le_succ i) hsucc
    rwa [List.getD_eq_getElem s 0 hsucc] at this
  · rw [List.getD_eq_default s _ (Nat.le_of_not_lt hsucc)]

theorem quantileLinear_mono (xs : List ℚ) (hxs : xs ≠ []) {q1 q2 : ℚ}
    (h0 : 0 ≤ q1) (h12 : q1 ≤ q2) (h1 : q2 ≤ 1) :
    quantileLinear xs q1 ≤ quantileLinear xs q2 := by
  simp only [quantileLinear]
  set s := List.insertionSort (· ≤ ·) xs with hs_def
  have hsort : List.Sorted (· ≤ ·) s := List.sorted_insertionSort _ xs
  have hpos : 0 < s.length := by
    rw [hs_def, List.length_insertionSort]
    exact List.length_pos.mpr hxs
  set n := s.length with hn_def
  have hn1 : (0 : ℚ) ≤ (n : ℚ) - 1 := by
    have : (1 : ℚ) ≤ (n : ℚ) := by exact_mod_cast hpos
    linarith
  set h1q : ℚ := ((n : ℚ) - 1) * q1 with hh1_def
  set h2q : ℚ := ((n : ℚ) - 1) * q2 with hh2_def
  have hh0 : 0 ≤ h1q := mul_nonneg hn1 h0
  have hh12 : h1q ≤ h2q := mul_le_mul_of_nonneg_left h12 hn1
  have hh2b : 0 ≤ h2q := le_trans hh0 hh12
  have hh2top : h2q ≤ (n : ℚ) - 1 := by
    calc h2q = ((n : ℚ) - 1) * q2 := rfl
      _ ≤ ((n : ℚ) - 1) * 1 := mul_le_mul_of_nonneg_left h1 hn1
      _ = (n : ℚ) - 1 := mul_one _
  have hf1 : (0 : ℤ) ≤ ⌊h1q⌋ := Int.floor_nonneg.mpr hh0
  have hf2 : (0 : ℤ) ≤ ⌊h2q⌋ := Int.floor_nonneg.mpr hh2b
  set i1 : ℕ := (⌊h1q⌋).toNat with hi1_def
  set i2 : ℕ := (⌊h2q⌋).toNat with hi2_def
  have hcast1 : (i1 : ℚ) = ((⌊h1q⌋ : ℤ) : ℚ) := by
    exact_mod_cast congrArg (Int.cast : ℤ → ℚ) (Int.toNat_of_nonneg hf1)
  have hcast2 : (i2 : ℚ) = ((⌊h2q⌋ : ℤ) : ℚ) := by
    exact_mod_cast congrArg (Int.cast : ℤ → ℚ) (Int.toNat_of_nonneg hf2)
  have hfrac1lo : 0 ≤ h1q - (i1 : ℚ) := by
    rw [hcast1]
    exact sub_nonneg.mpr (Int.floor_le h1q)
  have hfrac1hi : h1q - (i1 : ℚ) ≤ 1 := by
    rw [hcast1]
    have := Int.lt_floor_add_one h1q
    linarith
  have hfrac2lo : 0 ≤ h2q - (i2 : ℚ) := by
    rw [hcast2]
    exact sub_nonneg.mpr (Int.floor_le h2q)
  have hi12 : i1 ≤ i2 := Int.toNat_le_toNat (Int.floor_mono hh12)
  have hfl2top : ⌊h2q⌋ ≤ (n : ℤ) - 1 := by
    have hcast : (((n : ℤ) - 1 : ℤ) : ℚ) = (n : ℚ) - 1 := by push_cast; ring
    calc ⌊h2q⌋ ≤ ⌊(((n : ℤ) - 1 : ℤ) : ℚ)⌋ := Int.floor_mono (by rw [hcast]; exact hh2top)
      _ = (n : ℤ) - 1 := Int.floor_intCast _
  have hi2top : i2 < n := by
    have h := Int.toNat_le_toNat hfl2top
    omega
  have hd2 : 0 ≤ s.getD (i2 + 1) (s.getD i2 0) - s.getD i2 0 :=
    sub_nonneg.mpr (getD_succ_ge hsort hi2top)
  rcases eq_or_lt_of_le hi12 with heq | hlt
  · rw [heq]
    apply add_le_add_left
    exact mul_le_mul_of_nonneg_right (sub_le_sub_right hh12 _) hd2
  · have hi1succ : i1 + 1 < n := lt_of_le_of_lt hlt hi2top
    have hv1 : s.getD i1 0 + (h1q - (i1 : ℚ)) * (s.getD (i1 + 1) (s.getD i1 0) - s.getD i1 0)
        ≤ s.getD (i1 + 1) 0 := by
      have e1 : s.getD (i1 + 1) (s.getD i1 0) = s[i1 + 1] := List.getD_eq_getElem s _ hi1succ
      have e2 : s.getD (i1 + 1) 0 = s[i1 + 1] := List.getD_eq_getElem s 0 hi1succ
      rw [e1, e2]
      have hd1 : 0 ≤ s[i1 + 1] - s.getD i1 0 := by
        have h' := sorted_getD_mono hsort (Nat.le_succ i1) hi1succ
        rw [List.getD_eq_getElem s 0 hi1succ] at h'
        linarith
      have hm := mul_le_mul_of_nonneg_right hfrac1hi hd1
      rw [one_mul] at hm
      linarith
  -- between the two interpolation cells the sorted order carries the bound
    have hmid : s.getD (i1 + 1) 0 ≤ s.getD i2 0 := sorted_getD_mono hsort hlt hi2top
    have hv2 : s.getD i2 0
        ≤ s.getD i2 0 + (h2q - (i2 : ℚ)) * (s.getD (i2 + 1) (s.getD i2 0) - s.getD i2 0) :=
      le_add_of_nonneg_right (mul_nonneg hfrac2lo hd2)
    linarith

/-! ## Concrete fixtures (the spec's 3-row scenario and variants) -/

def db0 : DBState :=
  { boroughs := ["Camden", "Westminster"]
    buildingTypes := [⟨1, "Residential"⟩, ⟨2, "Mixed-Use"⟩]
    buildings :=
      [ ⟨1, "Camden", 51.5, -0.1, 2, 0, 1⟩
      , ⟨2, "Camden", 51.51, -0.11, 1, 1, 2⟩
      , ⟨3, "Westminster", 51.52, -0.12, 5, 0, 1⟩ ]
    usages := [⟨1, 1, 1000, 50⟩, ⟨2, 2, 3000, 120⟩, ⟨3, 3, 500, 20⟩] }

def dfScenario : List CsvRow :=
  [ ⟨"Camden", "Residential", 51.5, -0.1, 2, 0, 1000, 50⟩
  , ⟨"Camden", "Mixed-Use", 51.51, -0.11, 1, 1, 3000, 120⟩
  , ⟨"Westminster", "Residential", 51.52, -0.12, 5, 0, 500, 20⟩ ]

/-- A store whose BuildingType table knows only "Residential". -/
def dbTypesOnly : DBState := ⟨["Camden"], [⟨1, "Residential"⟩], [], []⟩

/-- A CSV whose first row has a building type missing from the lookup and
whose second row is valid. -/
def dfBad : List CsvRow :=
  [ ⟨"Camden", "Industrial", 51.5, -0.1, 2, 0, 1000, 50⟩
  , ⟨"Camden", "Residential", 51.51, -0.11, 1, 1, 3000, 120⟩ ]

/-- A store with a single Camden building whose usage row has negative kwh. -/
def dbNeg : DBState :=
  { boroughs := ["Camden"]
    buildingTypes := [⟨1, "Residential"⟩]
    buildings := [⟨1, "Camden", 51, 0, 1, 0, 1⟩]
    usages := [⟨1, 1, -5, 2⟩] }

def rowNeg : SummaryRow := ⟨1, 51, 0, "Residential", -5, 2⟩

/-- A store whose Borough table knows "B" although "B" has no buildings. -/
def dbC6 : DBState :=
  { boroughs := ["A", "B"]
    buildingTypes := [⟨1, "Residential"⟩]
    buildings := [⟨1, "A", 0, 0, 0, 0, 1⟩]
    usages := [⟨1, 1, 50, 10⟩] }

def row3000 : SummaryRow := ⟨2, 51.51, -0.11, "Mixed-Use", 3000, 120⟩

/-! ## Claim theorems -/

/-- Claim C1: for every borough, optional building-type filter and
threshold whose filtered row-set is non-empty (the store satisfying PK/FK
integrity), the borough summary returns total_buildings equal to the number
of distinct building ids of the filtered row-set (never the raw row
count), total_kwh the sum of kwh, avg_kwh the mean of kwh and avg_peak_kw
the mean of peak_kw; and for threshold 0 with no type filter the total_kwh
equals the kwh summed over all the borough's usage rows. -/
theorem c1_borough_summary_stats (db : DBState) (borough building_type : String)
    (threshold : ℚ) (hB : BuildingIdsNodup db) (hT : TypeIdsNodup db) (hP : TypesPresent db)
    (hne : filteredRows db borough building_type threshold ≠ []) :
    generate_borough_summary_data db borough building_type threshold =
      some
        { rows := filteredRows db borough building_type threshold
          summary_stats :=
            { total_buildings :=
                ((filteredRows db borough building_type threshold).map
                  (·.building_id)).toFinset.card
              total_kwh := ((filteredRows db borough building_type threshold).map (·.kwh)).sum
              avg_kwh :=
                ((filteredRows db borough building_type threshold).map (·.kwh)).sum
                  / (filteredRows db borough building_type threshold).length
              avg_peak_kw :=
                ((filteredRows db borough building_type threshold).map (·.peak_kw)).sum
                  / (filteredRows db borough building_type threshold).length } }
    ∧ (threshold = 0 → building_type = "" →
        ((filteredRows db borough building_type threshold).map (·.kwh)).sum
          = ((boroughUsageRows db borough).map (·.kwh)).sum) := by
  constructor
  · simp only [generate_borough_summary_data]
    rw [if_neg fun h => hne (List.isEmpty_iff.mp h)]
    simp [List.card_toFinset]
  · intro ht hbt
    subst ht
    subst hbt
    have hrows : filteredRows db borough "" 0 = boroughJoinRows db borough := by
      unfold filteredRows typeFilteredRows
      simp
    rw [hrows]
    exact borough_total_kwh db borough hB hT hP

/-- Witness for C1 at the spec's 3-row scenario (Camden, no filter,
threshold 0). -/
theorem c1_borough_summary_stats_witness :
    BuildingIdsNodup db0 ∧ TypeIdsNodup db0 ∧ TypesPresent db0 ∧
      filteredRows db0 "Camden" "" 0 ≠ [] ∧
      (generate_borough_summary_data db0 "Camden" "" 0 =
        some
          { rows := filteredRows db0 "Camden" "" 0
            summary_stats :=
              { total_buildings :=
                  ((filteredRows db0 "Camden" "" 0).map (·.building_id)).toFinset.card
                total_kwh := ((filteredRows db0 "Camden" "" 0).map (·.kwh)).sum
                avg_kwh := ((filteredRows db0 "Camden" "" 0).map (·.kwh)).sum
                    / (filteredRows db0 "Camden" "" 0).length
                avg_peak_kw := ((filteredRows db0 "Camden" "" 0).map (·.peak_kw)).sum
                    / (filteredRows db0 "Camden" "" 0).length } }
      ∧ ((0 : ℚ) = 0 → "" = "" →
          ((filteredRows db0 "Camden" "" 0).map (·.kwh)).sum
            = ((boroughUsageRows db0 "Camden").map (·.kwh)).sum)) :=
  ⟨by decide, by decide, by decide, by decide,
    c1_borough_summary_stats db0 "Camden" "" 0 (by decide) (by decide) (by decide) (by decide)⟩

/-- Claim C2: for every combination of borough, building-type filter and
threshold whose filtered row-set is empty, the borough-summary route
returns the explicit no-data response (a value, not an exception). -/
theorem c2_empty_sentinel (db : DBState) (borough building_type : String) (threshold : ℚ)
    (h : filteredRows db borough building_type threshold = []) :
    borough_summary_generate db borough building_type threshold
      = .noData borough "No data matches your selected filters." := by
  simp [borough_summary_generate, generate_borough_summary_data, h]

/-- Witness for C2 at an unknown borough name. -/
theorem c2_empty_sentinel_witness :
    filteredRows db0 "Nowhere" "" 0 = [] ∧
      borough_summary_generate db0 "Nowhere" "" 0
        = .noData "Nowhere" "No data matches your selected filters." :=
  ⟨by decide, c2_empty_sentinel db0 "Nowhere" "" 0 (by decide)⟩

/-- Claim C3: running the loader against a store whose Borough,
BuildingType and Building tables are already populated is a no-op: each
populate step is guarded by a zero-row-count check, so the state (hence
every table's row count) is unchanged and no error is raised. -/
theorem c3_loader_idempotent (df : List CsvRow) (st : DBState)
    (h1 : st.boroughs ≠ []) (h2 : st.buildingTypes ≠ []) (h3 : st.buildings ≠ []) :
    add_all_data df st = (st, none) := by
  simp [add_all_data, List.length_eq_zero, h1, h2, h3]

/-- Witness for C3: re-running the loader on the already-loaded scenario
store changes nothing. -/
theorem c3_loader_idempotent_witness :
    db0.boroughs ≠ [] ∧ db0.buildingTypes ≠ [] ∧ db0.buildings ≠ [] ∧
      add_all_data dfScenario db0 = (db0, none) :=
  ⟨by decide, by decide, by decide,
    c3_loader_idempotent dfScenario db0 (by decide) (by decide) (by decide)⟩

/-- Claim C4 (code bug, evaluated at the failing input): a row whose
building type is missing from the name-to-id lookup raises a KeyError that
neither except clause catches, so the bulk load aborts at that row: the
valid second row of dfBad is never inserted, contradicting the claim that
only the invalid row is skipped and processing continues. -/
theorem c4_unknown_type_aborts :
    add_buildings_and_energy dfBad dbTypesOnly
      = (dbTypesOnly, some (.keyError "Industrial"))
    ∧ (add_buildings_and_energy dfBad dbTypesOnly).1.buildings = [] := by decide

/-- Witness for C5 at the scenario store with threshold 2000. -/
theorem c5_high_demand_strict_witness :
    BuildingIdsNodup db0 ∧
      reportedCount (create_high_demand_chart 2000 db0) "Camden"
        = (db0.usages.filter fun u =>
            (db0.buildings.any fun bl =>
              u.building_id == bl.building_id && bl.borough_name == "Camden")
              && decide ((2000 : ℚ) < u.kwh)).length :=
  ⟨by decide, c5_high_demand_strict db0 (by decide) 2000 "Camden"⟩

/-- Counterexample to claim C6: in dbC6 no usage row exceeds threshold 100,
the borough "B" is known to the Borough table, yet the high-demand result
has no entry for "B": the fallback enumerates only the boroughs of the
building-usage join, not all known boroughs. -/
theorem c6_counterexample :
    (∀ u ∈ dbC6.usages, ¬ (100 : ℚ) < u.kwh)
    ∧ "B" ∈ dbC6.boroughs
    ∧ ∀ p ∈ create_high_demand_chart 100 dbC6, p.1 ≠ "B" := by decide

/-- Claim C6 (amended): for every threshold exceeded by no usage row, the
high-demand counts operation returns every borough appearing in the
building-usage join, each with count 0 (boroughs known to the Borough
table but absent from the join are omitted, and the result is empty when
there are no usage rows at all). -/
theorem c6_amended_join_boroughs (db : DBState) (t : ℚ)
    (h : ∀ r ∈ buildingUsageJoin db, ¬ t < r.2) :
    create_high_demand_chart t db
      = (pandasUnique ((buildingUsageJoin db).map (·.1))).map fun b => (b, 0) := by
  have hfil : (buildingUsageJoin db).filter (fun r => decide (t < r.2)) = [] :=
    List.filter_eq_nil_iff.mpr (by intro r hr; simpa using h r hr)
  simp only [create_high_demand_chart, hfil]
  rfl

/-- Witness for the amended C6 at dbC6 with threshold 100. -/
theorem c6_amended_join_boroughs_witness :
    (∀ r ∈ buildingUsageJoin dbC6, ¬ (100 : ℚ) < r.2) ∧
      create_high_demand_chart 100 dbC6
        = (pandasUnique ((buildingUsageJoin dbC6).map (·.1))).map fun b => (b, 0) :=
  ⟨by decide, c6_amended_join_boroughs dbC6 100 (by decide)⟩

/-- Claim C7: for percentiles p1 < p2 drawn from the form's choices
50/75/90/95, the kWh threshold computed at p1 over the full kwh
distribution of the entire usage population is at most the threshold
computed at p2 (the population being non-empty). -/
theorem c7_percentile_monotonic (db : DBState) (p1 p2 : ℕ)
    (hp1 : p1 ∈ ([50, 75, 90, 95] : List ℕ)) (hp2 : p2 ∈ ([50, 75, 90, 95] : List ℕ))
    (hlt : p1 < p2) (hne : db.usages ≠ []) :
    visualisation_high_demand_threshold db p1 ≤ visualisation_high_demand_threshold db p2 := by
  unfold visualisation_high_demand_threshold
  have hxs : db.usages.map (·.kwh) ≠ [] := by
    intro hmap
    exact hne (List.map_eq_nil_iff.mp hmap)
  have h0 : (0 : ℚ) ≤ (p1 : ℚ) / 100 := by positivity
  have h12 : (p1 : ℚ) / 100 ≤ (p2 : ℚ) / 100 := by
    have : (p1 : ℚ) ≤ (p2 : ℚ) := by exact_mod_cast Nat.le_of_lt hlt
    linarith
  have h1 : (p2 : ℚ) / 100 ≤ 1 := by
    fin_cases hp2 <;> norm_num
  exact quantileLinear_mono _ hxs h0 h12 h1

/-- Witness for C7 at the scenario store, percentiles 50 and 75. -/
theorem c7_percentile_monotonic_witness :
    50 ∈ ([50, 75, 90, 95] : List ℕ) ∧ 75 ∈ ([50, 75, 90, 95] : List ℕ) ∧ 50 < 75 ∧
      db0.usages ≠ [] ∧
      visualisation_high_demand_threshold db0 50 ≤ visualisation_high_demand_threshold db0 75 :=
  ⟨by decide, by decide, by decide, by decide,
    c7_percentile_monotonic db0 50 75 (by decide) (by decide) (by decide) (by decide)⟩

/-- Counterexample to claim C8: at threshold 0 the kwh filter of the
borough summary is skipped, so a matching row with negative kwh is in the
row-set although its kwh is not greater than or equal to the threshold. -/
theorem c8_counterexample :
    rowNeg ∈ filteredRows dbNeg "Camden" "" 0 ∧ ¬ ((0 : ℚ) ≤ rowNeg.kwh) := by decide

/-- Claim C8 (amended): for every non-zero threshold, a usage row matching
the borough and building-type filters is in the summary's row-set if and
only if its kwh is greater than or equal to the threshold; at threshold 0
the kwh filter is skipped entirely. -/
theorem c8_amended_inclusive (db : DBState) (borough building_type : String) (t : ℚ)
    (ht : t ≠ 0) (r : SummaryRow) :
    r ∈ filteredRows db borough building_type t
      ↔ r ∈ typeFilteredRows db borough building_type ∧ t ≤ r.kwh := by
  unfold filteredRows
  rw [if_pos ht, List.mem_filter]
  simp

/-- Witness for the amended C8 at the scenario store with threshold 3500. -/
theorem c8_amended_inclusive_witness :
    (3500 : ℚ) ≠ 0 ∧
      (row3000 ∈ filteredRows db0 "Camden" "" 3500
        ↔ row3000 ∈ typeFilteredRows db0 "Camden" "" ∧ (3500 : ℚ) ≤ row3000.kwh) :=
  ⟨by norm_num, c8_amended_inclusive db0 "Camden" "" 3500 (by norm_num) row3000⟩

/-- Claim C9: for every borough whose density query matches zero rows, the
heatmap operation returns the single-default-point fallback map at
(51.5074, -0.1278) rather than failing. -/
theorem c9_heatmap_fallback (db : DBState) (borough : String)
    (h : heatmapRows db borough = []) :
    create_energy_heatmap db borough = .noDataMap (51.5074 : ℚ) (-0.1278 : ℚ) borough := by
  simp [create_energy_heatmap, h]

/-- Witness for C9 at an unknown borough name. -/
theorem c9_heatmap_fallback_witness :
    heatmapRows db0 "Nowhere" = [] ∧
      create_energy_heatmap db0 "Nowhere" = .noDataMap (51.5074 : ℚ) (-0.1278 : ℚ) "Nowhere" :=
  ⟨by decide, c9_heatmap_fallback db0 "Nowhere" (by decide)⟩

/-- The borough summary with the threshold filter absent, written from the
spec's words (borough and optional type filter only) for comparison with
the threshold-0 call. -/
def generate_borough_summary_data_noThreshold (db : DBState) (borough building_type : String) :
    Option BoroughSummaryData :=
  let rows := typeFilteredRows db borough building_type
  if rows.isEmpty then none
  else
    some
      { rows := rows
        summary_stats :=
          { total_buildings := (rows.map (·.building_id)).dedup.length
            total_kwh := (rows.map (·.kwh)).sum
            avg_kwh := (rows.map (·.kwh)).sum / rows.length
            avg_peak_kw := (rows.map (·.peak_kw)).sum / rows.length } }

/-- Claim C10: a threshold of 0 is treated as absent: the borough summary
computed with threshold 0 coincides with the summary whose kwh filter is
never applied, so every row matching the borough and type filters
(including rows with negative kwh) is in the row-set at threshold 0. -/
theorem c10_threshold_zero_absent (db : DBState) (borough building_type : String) :
    generate_borough_summary_data db borough building_type 0
      = generate_borough_summary_data_noThreshold db borough building_type
    ∧ filteredRows db borough building_type 0 = typeFilteredRows db borough building_type := by
  have hrows : filteredRows db borough building_type 0
      = typeFilteredRows db borough building_type := by
    unfold filteredRows
    simp
  constructor
  · simp only [generate_borough_summary_data, generate_borough_summary_data_noThreshold, hrows]
  · exact hrows

end Leet
